import Mathlib

/-!
Shallow embedding of the validation, permission and filter logic of the
api_yamdb excerpt (src/api_yamdb/api/serializers.py, filters.py,
v1/permissions.py).  Persistent state (the relational store) is passed
explicitly: a list of existing category slugs, of existing (username, email)
pairs, of existing title ids and of existing (title, author) review pairs.
Fallible validators return `Except`.
-/

/-- Error outcomes a serializer method can signal: a `ValidationError`
carrying a message, or the not-found signal raised by `get_object_or_404`. -/
inductive VErr where
  | validation (msg : String) : VErr
  | notFound : VErr
  deriving DecidableEq, Repr

deriving instance DecidableEq for Except

/-- `ReviewSerializer.validate_score` (serializers.py:159-162), embedded
literally: the Python chained comparison `0 > value > 10` means
`0 > value and value > 10`. -/
def validate_score (value : Int) : Except VErr Int :=
  if 0 > value ∧ value > 10 then
    Except.error (VErr.validation "score must be on the 10-point scale")
  else
    Except.ok value

/-- `TitleWriteSerializer.validate_year` (serializers.py:141-145); the
current calendar year (`dt.datetime.now().year`) is an explicit argument. -/
def validate_year (currentYear : Int) (value : Int) : Except VErr Int :=
  if value > currentYear then
    Except.error (VErr.validation "year cannot exceed the current year")
  else
    Except.ok value

/-- A stored user row: username and email, as queried by
`User.objects.filter(username=...)` / `filter(email=...)`. -/
structure UserRow where
  username : String
  email : String
  deriving DecidableEq, Repr

/-- `CreateUserSerializer.validate` (serializers.py:52-65): rejects the
reserved username "me", then an already-taken username, then an
already-taken email; otherwise returns the data unchanged. -/
def create_user_validate (store : List UserRow) (username email : String) :
    Except VErr (String × String) :=
  if username = "me" then
    Except.error (VErr.validation "username me is forbidden")
  else if ∃ r ∈ store, r.username = username then
    Except.error (VErr.validation "such a user exists")
  else if ∃ r ∈ store, r.email = email then
    Except.error (VErr.validation "a user with this email exists")
  else
    Except.ok (username, email)

/-- Character class of Django REST framework's `SlugField`
(regex `[-a-zA-Z0-9_]+`). -/
def slugCharOk (c : Char) : Bool :=
  c.isAlphanum || c = '-' || c = '_'

/-- Field-level checks of `CategorySerializer.slug` (serializers.py:83-84):
`SlugField(max_length=50, min_length=None, allow_blank=False)`. -/
def slugFieldOk (s : String) : Bool :=
  s ≠ "" && s.length ≤ 50 && s.toList.all slugCharOk

/-- `CategorySerializer.validate_slug` (serializers.py:86-90): fails when a
Category with this slug already exists in the store (`cats` is the list of
existing category slugs); runs on every write, updates included. -/
def category_validate_slug (cats : List String) (value : String) :
    Except VErr String :=
  if value ∈ cats then
    Except.error (VErr.validation "a category with this slug already exists")
  else
    Except.ok value

/-- Full slug validation on a Category write: the declared field checks
followed by `validate_slug`, in DRF's field-then-method order. -/
def categoryWriteSlug (cats : List String) (value : String) :
    Except VErr String :=
  if slugFieldOk value then
    category_validate_slug cats value
  else
    Except.error (VErr.validation "invalid slug field value")

/-- `ReviewSerializer.validate` (serializers.py:164-176).  `titles` is the
set of existing Title primary keys, `reviews` the set of stored
(title id, author id) pairs.  `get_object_or_404(Title, pk=title_id)` is the
first effect: it raises the not-found signal whenever the path's title id
does not resolve, for every HTTP method; only then, on POST, the duplicate
(title, author) check runs. -/
def review_validate (titles : List Nat) (reviews : List (Nat × Nat))
    (method : String) (author : Nat) (title_id : Nat) : Except VErr Unit :=
  if title_id ∈ titles then
    if method = "POST" ∧ (title_id, author) ∈ reviews then
      Except.error (VErr.validation "more than one review per title is forbidden")
    else
      Except.ok ()
  else
    Except.error VErr.notFound

/-- `rest_framework.permissions.SAFE_METHODS`. -/
def SAFE_METHODS : List String := ["GET", "HEAD", "OPTIONS"]

/-- The authenticated-identity object the permission classes read
(spec §6): `is_authenticated`, the role-derived predicates `is_admin` and
`is_moderator`, the `is_superuser` flag, and the primary key used by the
`request.user == obj.author` comparison. -/
structure Identity where
  id : Nat
  is_authenticated : Bool
  is_admin : Bool
  is_moderator : Bool
  is_superuser : Bool
  deriving DecidableEq, Repr

/-- An object guarded by `has_object_permission`; only its `author`
(a user primary key) is consulted. -/
structure GuardedObj where
  author : Nat
  deriving DecidableEq, Repr

/-- `IsAdminOrReadOnly.has_permission` (permissions.py:17-21). -/
def IsAdminOrReadOnly_has_permission (method : String) (user : Identity) : Bool :=
  method ∈ SAFE_METHODS
    || (user.is_authenticated && (user.is_admin || user.is_superuser))

/-- `IsAdminOrModeratirOrAuthor.has_object_permission`
(permissions.py:34-41); the class name's spelling follows the source. -/
def IsAdminOrModeratirOrAuthor_has_object_permission
    (method : String) (user : Identity) (obj : GuardedObj) : Bool :=
  method ∈ SAFE_METHODS
    || user.is_superuser
    || user.is_admin
    || user.is_moderator
    || user.id == obj.author

/-- A Title record as the filter sees it (model fields per spec §3:
`name`, `year`, optional `description`, one Category by slug, zero-or-more
Genres by slug).  `category` is the related category's slug (`none` when the
nullable foreign key is unset); `genres` the related genres' slugs. -/
structure Title where
  name : String
  year : Int
  description : String
  category : Option String
  genres : List String
  deriving DecidableEq, Repr

/-- Last value bound to `key` in the query string, as Django's
`QueryDict.__getitem__` returns it. -/
def getParam (params : List (String × String)) (key : String) : Option String :=
  params.foldl (fun acc p => if p.1 = key then some p.2 else acc) none

/-- ASCII lower-casing of one character. -/
def toLowerChar (c : Char) : Char :=
  if 65 ≤ c.toNat ∧ c.toNat ≤ 90 then Char.ofNat (c.toNat + 32) else c

/-- ASCII lower-casing of a character list. -/
def lowerChars (cs : List Char) : List Char :=
  cs.map toLowerChar

/-- Whether the first list is an initial segment of the second. -/
def leadsWith : List Char → List Char → Bool
  | [], _ => true
  | _ :: _, [] => false
  | a :: as, b :: bs => a == b && leadsWith as bs

/-- Whether the first list occurs contiguously inside the second. -/
def occursIn (needle : List Char) (hay : List Char) : Bool :=
  match hay with
  | [] => leadsWith needle []
  | _ :: rest => leadsWith needle hay || occursIn needle rest

/-- Case-insensitive substring containment, the `icontains` lookup. -/
def icontains (hay sub : String) : Bool :=
  occursIn (lowerChars sub.toList) (lowerChars hay.toList)

/-- Decimal digit value of a character, if any. -/
def digitVal (c : Char) : Option Nat :=
  if c.isDigit then some (c.toNat - 48) else none

/-- Parses a non-empty all-digit character list as a natural number. -/
def parseNatChars (cs : List Char) : Option Nat :=
  match cs with
  | [] => none
  | _ =>
    cs.foldl
      (fun acc c => acc.bind (fun n => (digitVal c).map (fun d => 10 * n + d)))
      (some 0)

/-- Parses a decimal integer string, with an optional leading minus sign —
the numeric interpretation `NumberFilter` gives the raw query value. -/
def parseIntString (s : String) : Option Int :=
  match s.toList with
  | '-' :: rest => (parseNatChars rest).map (fun n => -(n : Int))
  | cs => (parseNatChars cs).map (fun n => (n : Int))

/-- The declared `category` filter: exact match on `category__slug`. -/
def categoryMatches (v : String) (t : Title) : Bool :=
  t.category = some v

/-- The declared `genre` filter: exact match on `genre__slug` across the
many-to-many relation (some related genre has this slug). -/
def genreMatches (v : String) (t : Title) : Bool :=
  t.genres.contains v

/-- The declared `name` filter: `icontains` on `name`. -/
def nameMatches (v : String) (t : Title) : Bool :=
  icontains t.name v

/-- The declared `year` filter: `NumberFilter`, exact match on `year`. -/
def yearMatches (n : Int) (t : Title) : Bool :=
  t.year = n

/-- The `year` filter applied to the raw query value: the value is parsed
as a number and compared exactly. -/
def yearParamMatches (v : String) (t : Title) : Bool :=
  match parseIntString v with
  | some n => yearMatches n t
  | none => false

/-- The filter `Meta.fields = '__all__'` (filters.py:21-23) auto-generates
for the remaining Title model field an exact-match `description` filter. -/
def descriptionMatches (v : String) (t : Title) : Bool :=
  t.description = v

/-- Applies one bound filter: a parameter whose value is empty is skipped
(django-filter treats empty values as "not supplied"). -/
def applyBound (f : String → Title → Bool) (v : Option String) (t : Title) : Bool :=
  match v with
  | none => true
  | some s => if s = "" then true else f s t

/-- The predicate `TitleFilter` (filters.py:6-23) builds from the query
parameters: the four declared filters plus the `'__all__'`-generated
`description` filter, conjoined; query keys naming no filter are ignored. -/
def titlePred (params : List (String × String)) (t : Title) : Bool :=
  applyBound categoryMatches (getParam params "category") t
    && applyBound genreMatches (getParam params "genre") t
    && applyBound nameMatches (getParam params "name") t
    && applyBound yearParamMatches (getParam params "year") t
    && applyBound descriptionMatches (getParam params "description") t

/-- Running the filter set over a stored list of Titles.  A non-empty
`year` value that is not a number makes the filter form invalid, which the
backend surfaces as a validation failure; otherwise the titles satisfying
the predicate are selected, in store order. -/
def titleFilterRun (params : List (String × String)) (qs : List Title) :
    Except VErr (List Title) :=
  match getParam params "year" with
  | some v =>
      if v ≠ "" ∧ parseIntString v = none then
        Except.error (VErr.validation "enter a number")
      else
        Except.ok (qs.filter (titlePred params))
  | none => Except.ok (qs.filter (titlePred params))

/-- The filter keys `TitleFilter` actually binds: the four declared ones
and the `'__all__'`-generated `description`. -/
def titleFilterKeys : List String :=
  ["category", "genre", "name", "year", "description"]

/-- What "the Title satisfies a supplied parameter" means: if the query
bound `key` to a value (and the value is non-empty, hence not skipped),
the corresponding match predicate holds of the Title. -/
def suppliedOk (o : Option String) (f : String → Title → Bool) (t : Title) : Prop :=
  match o with
  | none => True
  | some v => v = "" ∨ f v t = true

/-- The two concrete Titles of the spec's filter scenario. -/
def scenarioA : Title :=
  { name := "Title A", year := 2000, description := "",
    category := some "movie", genres := ["drama"] }

/-- Second Title of the spec's filter scenario. -/
def scenarioB : Title :=
  { name := "Title B", year := 2010, description := "",
    category := some "movie", genres := ["comedy"] }

/-- Concrete Titles separated only by their `description` field, used to
exercise the `'__all__'`-generated filter. -/
def descOnlyX : Title :=
  { name := "same", year := 1999, description := "x",
    category := none, genres := [] }

/-- Companion of `descOnlyX` with a different description. -/
def descOnlyY : Title :=
  { name := "same", year := 1999, description := "y",
    category := none, genres := [] }

/-! Helper lemmas shared by the claim theorems. -/

/-- Dropping query pairs whose key a predicate rejects does not change the
last-value lookup for a key the predicate keeps. -/
lemma foldl_getParam_filter (keep : String → Bool) (k : String)
    (hk : keep k = true) :
    ∀ (params : List (String × String)) (acc : Option String),
      (params.filter (fun p => keep p.1)).foldl
          (fun acc p => if p.1 = k then some p.2 else acc) acc
        = params.foldl (fun acc p => if p.1 = k then some p.2 else acc) acc := by
  intro params
  induction params with
  | nil => intro acc; rfl
  | cons p rest ih =>
    intro acc
    by_cases hp : keep p.1 = true
    · simp only [List.filter_cons, hp, if_true, List.foldl_cons]
      exact ih _
    · have hne : p.1 ≠ k := fun h => hp (h ▸ hk)
      simp only [List.filter_cons, hp, if_false, List.foldl_cons, if_neg hne]
      exact ih _

/-- `getParam` specialisation of `foldl_getParam_filter` for the bound
filter keys. -/
lemma getParam_filter_known (k : String) (hk : k ∈ titleFilterKeys)
    (params : List (String × String)) :
    getParam (params.filter (fun p => p.1 ∈ titleFilterKeys)) k
      = getParam params k := by
  exact foldl_getParam_filter (fun s => decide (s ∈ titleFilterKeys)) k
    (by simpa using hk) params none

/-- Boolean filter application agrees with the propositional reading. -/
lemma applyBound_eq_true (f : String → Title → Bool) (o : Option String)
    (t : Title) : applyBound f o t = true ↔ suppliedOk o f t := by
  cases o with
  | none => simp [applyBound, suppliedOk]
  | some v =>
    by_cases hv : v = "" <;> simp [applyBound, suppliedOk, hv]

/-- C1 (code_bug evidence): the literal embedding of
`ReviewSerializer.validate_score` — the Python chained comparison
`0 > value > 10` is `0 > value and value > 10`, which no integer satisfies —
accepts every integer score unchanged, so no out-of-range score is ever
rejected, contradicting the documented 0–10 scale. -/
theorem validate_score_never_rejects :
    ∀ value : Int, validate_score value = Except.ok value := by
  intro v
  unfold validate_score
  rw [if_neg (by omega)]

/-- C6: `TitleWriteSerializer.validate_year` rejects every year strictly
greater than the current calendar year with a ValidationError and returns
every year less than or equal to it unchanged (so the current year itself
is accepted). -/
theorem validate_year_spec :
    ∀ (currentYear value : Int),
      (value > currentYear →
        ∃ m, validate_year currentYear value = Except.error (VErr.validation m)) ∧
      (value ≤ currentYear → validate_year currentYear value = Except.ok value) := by
  intro cy v
  constructor
  · intro h
    exact ⟨"year cannot exceed the current year", by
      unfold validate_year; rw [if_pos h]⟩
  · intro h
    unfold validate_year
    rw [if_neg (not_lt.mpr h)]

/-- Witness for `validate_year_spec` at the concrete current year 2025:
2026 is rejected and the boundary year 2025 is accepted. -/
theorem validate_year_spec_witness :
    (∃ m, validate_year 2025 2026 = Except.error (VErr.validation m))
      ∧ validate_year 2025 2025 = Except.ok 2025 :=
  ⟨(validate_year_spec 2025 2026).1 (by decide),
   (validate_year_spec 2025 2025).2 (by decide)⟩

/-- C2: on a Category write, slug validation fails with a ValidationError
whenever a Category with that slug is already in the store — an update
keeping the record's own slug included, since its slug is in the store —
and succeeds for a non-blank slug-formatted value of at most 50 characters
that no stored Category carries. -/
theorem categoryWriteSlug_spec :
    ∀ (cats : List String) (value : String),
      (value ∈ cats →
        ∃ m, categoryWriteSlug cats value = Except.error (VErr.validation m)) ∧
      (value ∉ cats → slugFieldOk value = true →
        categoryWriteSlug cats value = Except.ok value) := by
  intro cats value
  constructor
  · intro h
    by_cases hf : slugFieldOk value = true
    · exact ⟨"a category with this slug already exists", by
        simp [categoryWriteSlug, category_validate_slug, hf, h]⟩
    · exact ⟨"invalid slug field value", by
        simp [categoryWriteSlug, hf]⟩
  · intro h hf
    simp [categoryWriteSlug, category_validate_slug, hf, h]

/-- Witness for `categoryWriteSlug_spec`: with slug "action" stored, a
second write of "action" fails; with an empty store it succeeds. -/
theorem categoryWriteSlug_spec_witness :
    (∃ m, categoryWriteSlug ["action"] "action" = Except.error (VErr.validation m))
      ∧ categoryWriteSlug [] "action" = Except.ok "action" :=
  ⟨(categoryWriteSlug_spec ["action"] "action").1 (by decide),
   (categoryWriteSlug_spec [] "action").2 (by decide) (by decide)⟩

/-- C4: on a POST, `ReviewSerializer.validate` fails with a ValidationError
exactly when the authenticated author already has a stored Review for the
resolved Title; when no such (title, author) Review is stored — a different
author or a different title — the duplicate check passes and validation
succeeds. -/
theorem review_validate_duplicate_spec :
    ∀ (titles : List Nat) (reviews : List (Nat × Nat)) (author tid : Nat),
      tid ∈ titles →
      (((tid, author) ∈ reviews →
          ∃ m, review_validate titles reviews "POST" author tid
            = Except.error (VErr.validation m)) ∧
       ((tid, author) ∉ reviews →
          review_validate titles reviews "POST" author tid = Except.ok ())) := by
  intro titles reviews author tid ht
  constructor
  · intro hd
    exact ⟨"more than one review per title is forbidden", by
      simp [review_validate, ht, hd]⟩
  · intro hd
    simp [review_validate, ht, hd]

/-- Witness for `review_validate_duplicate_spec`: with Review (1, 5)
stored, author 5 cannot POST a second Review for Title 1, while author 6
can. -/
theorem review_validate_duplicate_spec_witness :
    (∃ m, review_validate [1] [(1, 5)] "POST" 5 1
        = Except.error (VErr.validation m))
      ∧ review_validate [1] [(1, 5)] "POST" 6 1 = Except.ok () :=
  ⟨(review_validate_duplicate_spec [1] [(1, 5)] 5 1 (by decide)).1 (by decide),
   (review_validate_duplicate_spec [1] [(1, 5)] 6 1 (by decide)).2 (by decide)⟩

/-- C10: `ReviewSerializer.validate` resolves the Title from the path's
title id on every invocation: whenever the id matches no stored Title, the
not-found signal is raised for every HTTP method (updates included) and
regardless of any stored duplicate review, i.e. before the duplicate check
is considered. -/
theorem review_validate_missing_title :
    ∀ (titles : List Nat) (reviews : List (Nat × Nat)) (method : String)
      (author tid : Nat),
      tid ∉ titles →
      review_validate titles reviews method author tid
        = Except.error VErr.notFound := by
  intro titles reviews method author tid ht
  simp [review_validate, ht]

/-- Witness for `review_validate_missing_title`: Title 1 is absent, so a
PATCH raises not-found, and so does a POST even though a duplicate
(1, 5) Review is stored. -/
theorem review_validate_missing_title_witness :
    review_validate [2] [] "PATCH" 5 1 = Except.error VErr.notFound
      ∧ review_validate [2] [(1, 5)] "POST" 5 1 = Except.error VErr.notFound :=
  ⟨review_validate_missing_title [2] [] "PATCH" 5 1 (by decide),
   review_validate_missing_title [2] [(1, 5)] "POST" 5 1 (by decide)⟩

/-- C5: `CreateUserSerializer.validate` fails with a ValidationError if and
only if the submitted username is the literal "me", or a stored User
already carries that username, or a stored User already carries that email;
when none of the three holds, it returns the (username, email) data
unchanged. -/
theorem create_user_validate_spec :
    ∀ (store : List UserRow) (u e : String),
      ((∃ m, create_user_validate store u e = Except.error (VErr.validation m)) ↔
        (u = "me" ∨ (∃ r ∈ store, r.username = u) ∨ (∃ r ∈ store, r.email = e))) ∧
      (u ≠ "me" → (¬∃ r ∈ store, r.username = u) → (¬∃ r ∈ store, r.email = e) →
        create_user_validate store u e = Except.ok (u, e)) := by
  intro store u e
  by_cases h1 : u = "me"
  · constructor
    · simp [create_user_validate, h1]
    · intro hne
      exact absurd h1 hne
  · by_cases h2 : ∃ r ∈ store, r.username = u
    · constructor
      · simp [create_user_validate, h1, h2]
      · intro _ hn
        exact absurd h2 hn
    · by_cases h3 : ∃ r ∈ store, r.email = e
      · constructor
        · simp [create_user_validate, h1, h2, h3]
        · intro _ _ hn
          exact absurd h3 hn
      · constructor
        · simp [create_user_validate, h1, h2, h3]
        · intro _ _ _
          simp [create_user_validate, h1, h2, h3]

/-- Witness for `create_user_validate_spec`: with only ("bob", "b@x")
stored, registering ("alice", "a@x") succeeds unchanged, and the reserved
username "me" is rejected. -/
theorem create_user_validate_spec_witness :
    create_user_validate [⟨"bob", "b@x"⟩] "alice" "a@x"
        = Except.ok ("alice", "a@x")
      ∧ (∃ m, create_user_validate [⟨"bob", "b@x"⟩] "me" "m@x"
          = Except.error (VErr.validation m)) :=
  ⟨(create_user_validate_spec [⟨"bob", "b@x"⟩] "alice" "a@x").2
      (by decide) (by decide) (by decide),
   (create_user_validate_spec [⟨"bob", "b@x"⟩] "me" "m@x").1.mpr (Or.inl rfl)⟩

/-- C7: `IsAdminOrReadOnly.has_permission` grants every request whose
method is GET, HEAD or OPTIONS regardless of the requester's identity; for
any other method it grants exactly the authenticated admins and
superusers, so an authenticated identity that is neither is denied. -/
theorem IsAdminOrReadOnly_has_permission_spec :
    ∀ (method : String) (u : Identity),
      (method ∈ SAFE_METHODS →
        IsAdminOrReadOnly_has_permission method u = true) ∧
      (method ∉ SAFE_METHODS →
        (IsAdminOrReadOnly_has_permission method u = true ↔
          (u.is_authenticated = true ∧
            (u.is_admin = true ∨ u.is_superuser = true)))) := by
  intro method u
  constructor
  · intro h
    simp [IsAdminOrReadOnly_has_permission, h]
  · intro h
    simp [IsAdminOrReadOnly_has_permission, h]

/-- Witness for `IsAdminOrReadOnly_has_permission_spec`: an anonymous GET
is granted; an authenticated non-admin, non-superuser POST is denied. -/
theorem IsAdminOrReadOnly_has_permission_spec_witness :
    IsAdminOrReadOnly_has_permission "GET" ⟨0, false, false, false, false⟩ = true
      ∧ IsAdminOrReadOnly_has_permission "POST" ⟨1, true, false, false, false⟩
          = false := by
  constructor
  · exact (IsAdminOrReadOnly_has_permission_spec "GET"
      ⟨0, false, false, false, false⟩).1 (by decide)
  · have h := (IsAdminOrReadOnly_has_permission_spec "POST"
      ⟨1, true, false, false, false⟩).2 (by decide)
    simpa using h

/-- C8: for an unsafe method, `IsAdminOrModeratirOrAuthor`'s object-level
check grants exactly the superusers, admins, moderators and the object's
author; a safe-method request is always granted at the object level. -/
theorem IsAdminOrModeratirOrAuthor_object_spec :
    ∀ (method : String) (u : Identity) (obj : GuardedObj),
      (method ∉ SAFE_METHODS →
        (IsAdminOrModeratirOrAuthor_has_object_permission method u obj = true ↔
          (u.is_superuser = true ∨ u.is_admin = true ∨ u.is_moderator = true ∨
            u.id = obj.author))) ∧
      (method ∈ SAFE_METHODS →
        IsAdminOrModeratirOrAuthor_has_object_permission method u obj = true) := by
  intro method u obj
  constructor
  · intro h
    simp [IsAdminOrModeratirOrAuthor_has_object_permission, h, or_assoc]
  · intro h
    simp [IsAdminOrModeratirOrAuthor_has_object_permission, h]

/-- Witness for `IsAdminOrModeratirOrAuthor_object_spec`: on DELETE the
object's author (id 7) is granted and a plain authenticated user (id 8) is
denied; on GET the plain user is granted. -/
theorem IsAdminOrModeratirOrAuthor_object_spec_witness :
    IsAdminOrModeratirOrAuthor_has_object_permission "DELETE"
        ⟨7, true, false, false, false⟩ ⟨7⟩ = true
      ∧ IsAdminOrModeratirOrAuthor_has_object_permission "DELETE"
          ⟨8, true, false, false, false⟩ ⟨7⟩ = false
      ∧ IsAdminOrModeratirOrAuthor_has_object_permission "GET"
          ⟨8, true, false, false, false⟩ ⟨7⟩ = true := by
  refine ⟨?_, ?_, ?_⟩
  · exact ((IsAdminOrModeratirOrAuthor_object_spec "DELETE"
      ⟨7, true, false, false, false⟩ ⟨7⟩).1 (by decide)).mpr
      (Or.inr (Or.inr (Or.inr rfl)))
  · have h := (IsAdminOrModeratirOrAuthor_object_spec "DELETE"
      ⟨8, true, false, false, false⟩ ⟨7⟩).1 (by decide)
    simpa using h
  · exact (IsAdminOrModeratirOrAuthor_object_spec "GET"
      ⟨8, true, false, false, false⟩ ⟨7⟩).2 (by decide)

/-- C9: the Title filter is conjunctive — for every query and store, a
Title is selected exactly when it is stored and satisfies every supplied
(non-empty) parameter: category by exact slug, genre by exact related
slug, name by case-insensitive substring, year by exact numeric match (and
the generated description filter by exact match); with no parameters every
Title is selected; and on the spec's scenario, category=movie with
year=2000 selects exactly scenarioA out of {scenarioA, scenarioB}. -/
theorem titleFilter_conjunctive :
    (∀ (params : List (String × String)) (qs sel : List Title),
        titleFilterRun params qs = Except.ok sel →
        ∀ t : Title,
          t ∈ sel ↔ t ∈ qs
            ∧ suppliedOk (getParam params "category") categoryMatches t
            ∧ suppliedOk (getParam params "genre") genreMatches t
            ∧ suppliedOk (getParam params "name") nameMatches t
            ∧ suppliedOk (getParam params "year") yearParamMatches t
            ∧ suppliedOk (getParam params "description") descriptionMatches t)
      ∧ (∀ qs : List Title, titleFilterRun [] qs = Except.ok qs)
      ∧ titleFilterRun [("category", "movie"), ("year", "2000")]
          [scenarioA, scenarioB] = Except.ok [scenarioA] := by
  refine ⟨?_, ?_, by decide⟩
  · intro params qs sel h t
    have hsel : sel = qs.filter (titlePred params) := by
      unfold titleFilterRun at h
      split at h
      · split at h
        · simp at h
        · exact (Except.ok.inj h).symm
      · exact (Except.ok.inj h).symm
    subst hsel
    rw [List.mem_filter]
    unfold titlePred
    simp only [Bool.and_eq_true, applyBound_eq_true]
    tauto
  · intro qs
    unfold titleFilterRun
    exact congrArg Except.ok (List.filter_eq_self.mpr fun a _ => rfl)

/-- Witness for `titleFilter_conjunctive` on the scenario query
category=movie, year=2000 over the store [scenarioA, scenarioB]:
scenarioA is selected and scenarioB is not. -/
theorem titleFilter_conjunctive_witness :
    scenarioA ∈ ([scenarioA] : List Title)
      ∧ scenarioB ∉ ([scenarioA] : List Title) := by
  have hmem := titleFilter_conjunctive.1 [("category", "movie"), ("year", "2000")]
    [scenarioA, scenarioB] [scenarioA] (by decide)
  constructor
  · exact (hmem scenarioA).mpr
      ⟨by decide, Or.inr (by decide), trivial, trivial, Or.inr (by decide), trivial⟩
  · intro hB
    have hy : ("2000" = "" ∨ yearParamMatches "2000" scenarioB = true) :=
      ((hmem scenarioB).mp hB).2.2.2.2.1
    rcases hy with h | h
    · exact absurd h (by decide)
    · exact absurd h (by decide)

/-- C3 counterexample: a `description` query parameter — outside
category/genre/name/year — does change the selected set, because
`Meta.fields = '__all__'` generates a filter for the Title model's
`description` field: on two Titles differing only in description,
description=x selects one Title while the empty query (the same query with
only category/genre/name/year parameters kept) selects both. -/
theorem titleFilter_description_changes_selection :
    titleFilterRun [("description", "x")] [descOnlyX, descOnlyY]
        = Except.ok [descOnlyX]
      ∧ titleFilterRun [] [descOnlyX, descOnlyY]
        = Except.ok [descOnlyX, descOnlyY]
      ∧ ([descOnlyX] : List Title) ≠ [descOnlyX, descOnlyY] :=
  ⟨by decide, by decide, by decide⟩

/-- C3 (amended): query parameters whose key names no filter bound by
`TitleFilter` — neither one of the four declared filters nor the
`'__all__'`-generated `description` filter — have no effect: filtering
with them dropped yields the same outcome. -/
theorem titleFilter_ignores_unbound_params :
    ∀ (params : List (String × String)) (qs : List Title),
      titleFilterRun (params.filter (fun p => p.1 ∈ titleFilterKeys)) qs
        = titleFilterRun params qs := by
  intro params qs
  have hg : ∀ k, k ∈ titleFilterKeys →
      getParam (params.filter (fun p => p.1 ∈ titleFilterKeys)) k
        = getParam params k :=
    fun k hk => getParam_filter_known k hk params
  have hpred : titlePred (params.filter (fun p => p.1 ∈ titleFilterKeys))
      = titlePred params := by
    funext t
    unfold titlePred
    rw [hg "category" (by decide), hg "genre" (by decide),
      hg "name" (by decide), hg "year" (by decide),
      hg "description" (by decide)]
  unfold titleFilterRun
  rw [hg "year" (by decide), hpred]
